import Mathlib

/-!
Shallow embedding of the `@paratco/async-modal` React library
(src/lib/context/ModalContext.tsx, src/lib/hooks/useAsyncModal.ts).

The Modal Host (`AsyncModalProvider`) keeps two pieces of mutable state:
`renderModal` (React `useState`, the held dialog descriptor or null) and
`promiseRef` (React `useRef`, the resolve/reject pair of the promise
returned by the pending `showModal` call, or null).  Promises are
modelled by numeric ids allocated in order of creation together with a
status store mapping each id to its settlement status; a `PromiseRef`
holding the callbacks of promise `i` is modelled as `some i`.  The type
parameters are `V` (the dialog view component), `R` (the result type)
and `P` (the payload type); a JS `undefined` result is `Option.none`.
-/

namespace AsyncModal

variable {V R P : Type}

/-- Settlement status of one JS promise: still pending, resolved with an
optional value (resolving with no value, i.e. `undefined`, is `none`),
or rejected. -/
inductive PromiseStatus (R : Type) where
  | pending : PromiseStatus R
  | resolved : Option R → PromiseStatus R
  | rejected : PromiseStatus R

/-- `ShowModalParams` from ModalContext.tsx: the dialog descriptor taken
by `showModal` — the view component `modal`, the optional `dismissible`
flag and the optional opaque payload `data`. -/
structure ShowModalParams (V P : Type) where
  modal : V
  dismissible : Option Bool
  data : Option P

/-- The state of one `AsyncModalProvider` instance: `renderModal` is the
`useState` slot holding the current descriptor, `promiseRef` the `useRef`
cell naming the promise whose resolve/reject callbacks it holds,
`nextId` the id the next created promise will get, and `promises` the
status of every promise id (ids at or above `nextId` are not yet
created; a freshly created promise starts out pending). -/
structure HostState (V R P : Type) where
  renderModal : Option (ShowModalParams V P)
  promiseRef : Option Nat
  nextId : Nat
  promises : Nat → PromiseStatus R

/-- The provider mounts with no held dialog, an empty promise ref and no
promise created yet. -/
def initState : HostState V R P :=
  ⟨none, none, 0, fun _ => PromiseStatus.pending⟩

/-- Calling `resolve(v)` on a JS promise settles it only if it is still
pending; a promise that is already settled is unchanged, and every other
promise is untouched. -/
def settle (f : Nat → PromiseStatus R) (i : Nat) (v : Option R) :
    Nat → PromiseStatus R :=
  fun q =>
    if q = i then
      match f i with
      | PromiseStatus.pending => PromiseStatus.resolved v
      | st => st
    else f q

/-- `showModal` (ModalContext.tsx lines 41–47): stores the descriptor in
`renderModal` via `setRenderModal(params)`, creates a fresh promise whose
resolve/reject pair overwrites `promiseRef.current`, and returns that
promise.  The returned `Nat` is the id of the promise handed back to the
caller; the promise store itself is unchanged, a fresh id being pending
already. -/
def showModal (s : HostState V R P) (params : ShowModalParams V P) :
    HostState V R P × Nat :=
  (⟨some params, some s.nextId, s.nextId + 1, s.promises⟩, s.nextId)

/-- `handleClose` (ModalContext.tsx lines 49–57): if `promiseRef.current`
is non-null its `resolve` is invoked with the optional result, then the
ref is set to null and `setRenderModal(null)` clears the held
descriptor — both unconditionally. -/
def handleClose (s : HostState V R P) (result : Option R) : HostState V R P :=
  ⟨none, none, s.nextId,
    match s.promiseRef with
    | some i => settle s.promises i result
    | none => s.promises⟩

/-- The props handed to the dialog view while `renderModal` is non-null
(ModalContext.tsx lines 67–73), minus the `onClose` function which is
`handleClose` itself: `dismissible` is the descriptor's value defaulted
by `renderModal.dismissible ?? true`, and `data` is `renderModal.data`
passed through unchanged. -/
structure RenderedDialog (V P : Type) where
  modal : V
  dismissible : Bool
  data : Option P

/-- What the provider renders below its children: the dialog view with
its props when a descriptor is held, nothing otherwise. -/
def renderedDialog (s : HostState V R P) : Option (RenderedDialog V P) :=
  match s.renderModal with
  | some rm => some ⟨rm.modal, Option.getD rm.dismissible true, rm.data⟩
  | none => none

/-- The two operations a client can drive a Modal Host with: `request`
(a `showModal` call with a descriptor) and `complete` (the dialog view
invoking `onClose`, with an optional result). -/
inductive HostOp (V R P : Type) where
  | request : ShowModalParams V P → HostOp V R P
  | complete : Option R → HostOp V R P

/-- One atomic operation applied to the host state. -/
def step (s : HostState V R P) : HostOp V R P → HostState V R P
  | HostOp.request params => (showModal s params).1
  | HostOp.complete r => handleClose s r

/-- A whole sequence of operations applied in order. -/
def run (s : HostState V R P) (ops : List (HostOp V R P)) : HostState V R P :=
  List.foldl step s ops

/-- `useAsyncModal` (useAsyncModal.ts lines 5–13): reads the ambient
context value; throws a configuration error when it is null, returns it
unchanged otherwise.  The context value type is abstract (`C`); a thrown
error is `Except.error` carrying the error message. -/
def useAsyncModal {C : Type} (context : Option C) : Except String C :=
  match context with
  | none => Except.error ("useAsyncModal must be used within a AsyncModalProvider")
  | some ctx => Except.ok ctx

/-! ### Reachability invariants -/

/-- Invariant of every reachable host state: the held descriptor and the
promise ref are present together; the promise ref names an
already-created promise; promises not yet created are pending. -/
def HostInv (s : HostState V R P) : Prop :=
  (s.renderModal = none ↔ s.promiseRef = none) ∧
  (∀ i, s.promiseRef = some i → i < s.nextId) ∧
  (∀ q, s.nextId ≤ q → s.promises q = PromiseStatus.pending)

theorem hostInv_initState : HostInv (initState : HostState V R P) :=
  ⟨by simp [initState], fun i h => by simp [initState] at h, fun q _ => rfl⟩

theorem hostInv_step {s : HostState V R P} (h : HostInv s) (op : HostOp V R P) :
    HostInv (step s op) := by
  obtain ⟨h1, h2, h3⟩ := h
  cases op with
  | request d =>
      refine ⟨by simp [step, showModal], ?_, ?_⟩
      · intro i hi
        simp [step, showModal] at hi ⊢
        omega
      · intro q hq
        simp [step, showModal] at hq ⊢
        exact h3 q (by omega)
  | complete v =>
      refine ⟨by simp [step, handleClose], ?_, ?_⟩
      · intro i hi
        simp [step, handleClose] at hi
      · intro q hq
        simp [step, handleClose] at hq ⊢
        cases href : s.promiseRef with
        | none => exact h3 q hq
        | some i =>
            have hqi : q ≠ i := by
              have := h2 i href
              omega
            simp [settle, hqi]
            exact h3 q hq

theorem hostInv_run {s : HostState V R P} (h : HostInv s)
    (ops : List (HostOp V R P)) : HostInv (run s ops) := by
  induction ops generalizing s with
  | nil => exact h
  | cons op l ih => exact ih (hostInv_step h op)

/-- A promise id is abandoned in a state when it was created, is still
pending, and the promise ref no longer names it. -/
def AbandonedAt (i : Nat) (s : HostState V R P) : Prop :=
  i < s.nextId ∧ s.promiseRef ≠ some i ∧ s.promises i = PromiseStatus.pending

theorem abandonedAt_step {i : Nat} {s : HostState V R P}
    (h : AbandonedAt i s) (op : HostOp V R P) : AbandonedAt i (step s op) := by
  obtain ⟨h1, h2, h3⟩ := h
  cases op with
  | request d =>
      refine ⟨by simp [step, showModal]; omega, ?_, ?_⟩
      · simp [step, showModal]
        omega
      · simpa [step, showModal] using h3
  | complete v =>
      refine ⟨by simpa [step, handleClose] using h1, ?_, ?_⟩
      · simp [step, handleClose]
      · simp [step, handleClose]
        cases href : s.promiseRef with
        | none => exact h3
        | some j =>
            have hij : i ≠ j := fun hij => h2 (by rw [href, hij])
            simp [settle, hij]
            exact h3

theorem abandonedAt_run {i : Nat} {s : HostState V R P}
    (h : AbandonedAt i s) (ops : List (HostOp V R P)) :
    AbandonedAt i (run s ops) := by
  induction ops generalizing s with
  | nil => exact h
  | cons op l ih => exact ih (abandonedAt_step h op)

/-- No reachable state holds a rejected promise. -/
def NoRejected (s : HostState V R P) : Prop :=
  ∀ q, s.promises q ≠ PromiseStatus.rejected

theorem noRejected_initState : NoRejected (initState : HostState V R P) :=
  fun q h => by simp [initState] at h

theorem noRejected_step {s : HostState V R P} (h : NoRejected s)
    (op : HostOp V R P) : NoRejected (step s op) := by
  cases op with
  | request d =>
      intro q
      simpa [step, showModal] using h q
  | complete v =>
      intro q
      simp [step, handleClose]
      cases href : s.promiseRef with
      | none => exact h q
      | some i =>
          by_cases hqi : q = i
          · subst hqi
            simp [settle]
            cases hs : s.promises q with
            | pending => simp
            | resolved w => simp
            | rejected => exact absurd hs (h q)
          · simp [settle, hqi]
            exact h q

theorem noRejected_run {s : HostState V R P} (h : NoRejected s)
    (ops : List (HostOp V R P)) : NoRejected (run s ops) := by
  induction ops generalizing s with
  | nil => exact h
  | cons op l ih => exact ih (noRejected_step h op)

/-! ### The claims -/

/-- C1: starting from any reachable state, issuing a second `showModal`
before the first request's dialog has invoked `handleClose` makes the
rendered dialog the second descriptor's view, and the promise returned
by the first request is abandoned: after any sequence of further
operations it is still pending (never resolved, never rejected). -/
theorem c1_second_request_replaces_and_abandons_first
    (l1 : List (HostOp V R P)) (d1 d2 : ShowModalParams V P)
    (l2 : List (HostOp V R P)) :
    renderedDialog (showModal (showModal (run initState l1) d1).1 d2).1 =
      some ⟨d2.modal, Option.getD d2.dismissible true, d2.data⟩ ∧
    (run (showModal (showModal (run initState l1) d1).1 d2).1 l2).promises
      (showModal (run initState l1) d1).2 = PromiseStatus.pending := by
  obtain ⟨h1, h2, h3⟩ := hostInv_run hostInv_initState l1
  refine ⟨rfl, ?_⟩
  have habn : AbandonedAt (showModal (run initState l1) d1).2
      (showModal (showModal (run initState l1) d1).1 d2).1 := by
    refine ⟨?_, ?_, ?_⟩
    · simp [showModal]
      omega
    · simp [showModal]
    · simpa [showModal] using h3 (run initState l1).nextId le_rfl
  exact (abandonedAt_run habn l2).2.2

/-- C2: for a request whose dialog view is currently rendered (i.e. the
trace ends with that `showModal` call), invoking the view's `onClose`
(`handleClose`) resolves exactly the promise returned by that request
and leaves every other promise's status unchanged. -/
theorem c2_onClose_settles_exactly_mounting_request
    (l : List (HostOp V R P)) (d : ShowModalParams V P) (v : Option R) :
    renderedDialog (showModal (run initState l) d).1 =
      some ⟨d.modal, Option.getD d.dismissible true, d.data⟩ ∧
    (handleClose (showModal (run initState l) d).1 v).promises
      (showModal (run initState l) d).2 = PromiseStatus.resolved v ∧
    (∀ q, q ≠ (showModal (run initState l) d).2 →
      (handleClose (showModal (run initState l) d).1 v).promises q =
        (run initState l).promises q) := by
  obtain ⟨h1, h2, h3⟩ := hostInv_run hostInv_initState l
  refine ⟨rfl, ?_, ?_⟩
  · have hp := h3 (run initState l).nextId le_rfl
    simp [showModal, handleClose, settle, hp]
  · intro q hq
    simp [showModal] at hq
    simp [showModal, handleClose, settle, hq]

/-- C2 witness: in the concrete trace `showModal` then `handleClose`
with result 3, the status of the unrelated promise id 5 is unchanged. -/
theorem c2_settles_witness :
    (handleClose
        (showModal (run (initState : HostState Nat Nat Nat) [])
          ⟨0, none, none⟩).1 (some 3)).promises 5 =
      (run (initState : HostState Nat Nat Nat) []).promises 5 :=
  (c2_onClose_settles_exactly_mounting_request [] ⟨0, none, none⟩
    (some 3)).2.2 5 (by decide)

/-- C3: when the host holds the completion handle of a still-pending
promise `i` (the deferred value returned by the corresponding request),
`handleClose` with optional result `v` resolves promise `i` to `v`; the
case `v = none` is a call with no argument, which resolves it to
`undefined`. -/
theorem c3_handleClose_resolves_with_result
    (s : HostState V R P) (i : Nat) (v : Option R)
    (href : s.promiseRef = some i)
    (hpend : s.promises i = PromiseStatus.pending) :
    (handleClose s v).promises i = PromiseStatus.resolved v := by
  simp [handleClose, href, settle, hpend]

/-- C3 witness: a concrete host holding the handle of pending promise 0;
closing with result 7 resolves it to 7, closing with no argument
resolves it to `undefined` (`none`). -/
theorem c3_resolves_witness :
    (handleClose
        (⟨none, some 0, 1, fun _ => PromiseStatus.pending⟩ :
          HostState Nat Nat Nat) (some 7)).promises 0 =
      PromiseStatus.resolved (some 7) ∧
    (handleClose
        (⟨none, some 0, 1, fun _ => PromiseStatus.pending⟩ :
          HostState Nat Nat Nat) none).promises 0 =
      PromiseStatus.resolved none :=
  ⟨c3_handleClose_resolves_with_result
      ⟨none, some 0, 1, fun _ => PromiseStatus.pending⟩ 0 (some 7) rfl rfl,
    c3_handleClose_resolves_with_result
      ⟨none, some 0, 1, fun _ => PromiseStatus.pending⟩ 0 none rfl rfl⟩

/-- C4: after a `showModal` call, a descriptor with `dismissible` unset
renders the view with `dismissible = true`, and one with `dismissible`
explicitly false renders it with `dismissible = false`. -/
theorem c4_dismissible_defaulting
    (s : HostState V R P) (d : ShowModalParams V P) :
    (d.dismissible = none →
      renderedDialog (showModal s d).1 = some ⟨d.modal, true, d.data⟩) ∧
    (d.dismissible = some false →
      renderedDialog (showModal s d).1 = some ⟨d.modal, false, d.data⟩) := by
  constructor <;> intro h <;> simp [renderedDialog, showModal, h]

/-- C4 witness: concrete descriptors with `dismissible` unset and with
`dismissible` explicitly false. -/
theorem c4_dismissible_witness :
    renderedDialog
        (showModal (initState : HostState Nat Nat Nat) ⟨0, none, none⟩).1 =
      some ⟨0, true, none⟩ ∧
    renderedDialog
        (showModal (initState : HostState Nat Nat Nat)
          ⟨1, some false, none⟩).1 =
      some ⟨1, false, none⟩ :=
  ⟨(c4_dismissible_defaulting initState ⟨0, none, none⟩).1 rfl,
    (c4_dismissible_defaulting initState ⟨1, some false, none⟩).2 rfl⟩

/-- C5: `useAsyncModal` errors with the configuration message when no
provider is in scope (context null), returns the provided context object
unchanged otherwise, and these are the only two outcomes. -/
theorem c5_useAsyncModal_two_outcomes (C : Type) :
    useAsyncModal (none : Option C) =
      Except.error ("useAsyncModal must be used within a AsyncModalProvider") ∧
    (∀ ctx : C, useAsyncModal (some ctx) = Except.ok ctx) ∧
    (∀ o : Option C,
      (∃ e, useAsyncModal o = Except.error e) ∨
      (∃ ctx : C, o = some ctx ∧ useAsyncModal o = Except.ok ctx)) := by
  refine ⟨rfl, fun ctx => rfl, fun o => ?_⟩
  cases o with
  | none => exact Or.inl ⟨_, rfl⟩
  | some ctx => exact Or.inr ⟨ctx, rfl, rfl⟩

/-- C6: from any host state whatsoever — whether or not a completion
handle exists — `handleClose` leaves the held descriptor empty (so no
dialog view is rendered) and the promise ref empty. -/
theorem c6_handleClose_clears_state (s : HostState V R P) (v : Option R) :
    (handleClose s v).renderModal = none ∧
    (handleClose s v).promiseRef = none ∧
    renderedDialog (handleClose s v) = none :=
  ⟨rfl, rfl, rfl⟩

/-- C7: `handleClose` is idempotent between requests: a second call,
with any result value, produces exactly the same state (including the
promise store, so no deferred value is settled by it). -/
theorem c7_handleClose_idempotent
    (s : HostState V R P) (v1 v2 : Option R) :
    handleClose (handleClose s v1) v2 = handleClose s v1 :=
  rfl

/-- C8: after a `showModal` call the rendered view's `data` prop is the
descriptor's `data`, unchanged; when `data` is absent the prop is
absent.  (The whole rendered-prop record is pinned, so the host cannot
have transformed the payload.) -/
theorem c8_data_passed_through
    (s : HostState V R P) (d : ShowModalParams V P) :
    renderedDialog (showModal s d).1 =
      some ⟨d.modal, Option.getD d.dismissible true, d.data⟩ ∧
    Option.map (fun rd => rd.data) (renderedDialog (showModal s d).1) =
      some d.data :=
  ⟨rfl, rfl⟩

/-- C9: in every state reachable from the initial state by any sequence
of request/complete operations, at most one descriptor is held (the slot
is an `Option`, of list length at most one) and the promise ref is
present exactly when the held state is non-empty. -/
theorem c9_single_slot_handle_matches_state (ops : List (HostOp V R P)) :
    (Option.toList (run (initState : HostState V R P) ops).renderModal).length ≤ 1 ∧
    ((run (initState : HostState V R P) ops).renderModal = none ↔
      (run (initState : HostState V R P) ops).promiseRef = none) := by
  refine ⟨?_, (hostInv_run hostInv_initState ops).1⟩
  cases (run (initState : HostState V R P) ops).renderModal <;> simp

/-- C10: the host never rejects a deferred value: after any sequence of
operations from the initial state, every promise id is either still
pending or resolved — none is rejected. -/
theorem c10_reject_never_invoked (ops : List (HostOp V R P)) (q : Nat) :
    (run (initState : HostState V R P) ops).promises q = PromiseStatus.pending ∨
    ∃ v, (run (initState : HostState V R P) ops).promises q =
      PromiseStatus.resolved v := by
  have h := noRejected_run noRejected_initState ops q
  cases hs : (run (initState : HostState V R P) ops).promises q with
  | pending => exact Or.inl rfl
  | resolved v => exact Or.inr ⟨v, rfl⟩
  | rejected => exact absurd hs h

end AsyncModal
